import Mathlib

/-!
Shallow embedding of the IPEC-Hackethon ML service
(src/ml_model/scripts: preprocess.py, inference.py, backend_integration.py).

Conventions of the embedding:
* Python floats are modelled as exact rationals (ℚ); decimal literals such
  as 0.1 become 1/10.
* A Python feature dict is an association list String × ℚ; dict.get(k, d)
  is lookup with a default.
* numpy's global random generator is modelled by a stream parameter:
  `rngStream seed i` is the i-th raw draw produced after `np.random.seed seed`.
  The distribution of the draws is not modelled; every theorem about the
  generator is universally quantified over the stream.
* Functions that can raise return `Except String`; the `try/except` blocks
  of inference.py become matches on those results.
* Trained model artifacts (XGBoost / RandomForest) are opaque: a record of
  an expected feature count plus an arbitrary prediction function.  The
  feature-count validation those libraries perform on `predict` is modelled
  explicitly.
* Wall-clock timestamps (`pd.Timestamp.now()` in process_request) are not
  modelled; the response envelope keeps the remaining fields.
-/

namespace SatML

/-- A JSON feature object / Python dict: ordered association list of named
numeric fields.  `List.lookup` returns the first binding, matching dict
semantics for the distinct keys used here. -/
abbrev Features := List (String × ℚ)

/-- Python `features.get(col, d)`. -/
def Features.getD (f : Features) (k : String) (d : ℚ) : ℚ :=
  (f.lookup k).getD d

/-- Result status of a fallible call: `true` on `.ok`. -/
def isOk {α : Type} : Except String α → Bool
  | .ok _ => true
  | .error _ => false

/-- Binary minimum on ℚ, written out so that the kernel can evaluate it. -/
def rmin (a b : ℚ) : ℚ :=
  if a ≤ b then a else b

/-- Binary maximum on ℚ, written out so that the kernel can evaluate it. -/
def rmax (a b : ℚ) : ℚ :=
  if a ≤ b then b else a

/-- Python `max(xs)` on a possibly empty sequence (raises when empty, hence
`Option`). -/
def pyMax (l : List ℚ) : Option ℚ :=
  match l with
  | [] => none
  | x :: xs => some (xs.foldl rmax x)

/-! ### MinMaxScaler (sklearn.preprocessing.MinMaxScaler, feature_range (0,1)) -/

/-- Fitted state of `MinMaxScaler(feature_range=(0, 1))`: the per-column
`data_min_` and `data_max_` arrays. -/
structure MinMaxScaler where
  dataMin : List ℚ
  dataMax : List ℚ
  deriving DecidableEq

/-- sklearn `n_features_in_` of a fitted scaler. -/
def MinMaxScaler.nFeatures (s : MinMaxScaler) : Nat :=
  s.dataMin.length

/-- Minimum of a column (fold over the list; the seed repeats the head,
which is harmless for min). -/
def listMin (l : List ℚ) : ℚ :=
  l.foldl rmin (l.headD 0)

/-- Maximum of a column. -/
def listMax (l : List ℚ) : ℚ :=
  l.foldl rmax (l.headD 0)

/-- `MinMaxScaler.fit`: per-column min and max over the matrix. -/
def MinMaxScaler.fit (X : List (List ℚ)) : MinMaxScaler :=
  let ncols := (X.headD []).length
  { dataMin := (List.range ncols).map (fun j => listMin (X.filterMap (fun row => row.get? j)))
  , dataMax := (List.range ncols).map (fun j => listMax (X.filterMap (fun row => row.get? j))) }

/-- One scaled entry: `(x - data_min) * scale_` where for feature_range
(0,1) `scale_ = 1 / (data_max - data_min)`, and a zero-range column gets
scale 1 (sklearn `_handle_zeros_in_scale`). -/
def minmaxScale (mn mx x : ℚ) : ℚ :=
  let d := mx - mn
  (x - mn) * (if d = 0 then 1 else 1 / d)

/-- Transform one row against the fitted per-column parameters (no shape
check; used where sklearn has already validated the shape). -/
def MinMaxScaler.transformRow (s : MinMaxScaler) (x : List ℚ) : List ℚ :=
  (List.zip (List.zip s.dataMin s.dataMax) x).map (fun p => minmaxScale p.1.1 p.1.2 p.2)

/-- `scaler.transform` on a single row: sklearn raises when the feature
count differs from the fitted `n_features_in_`. -/
def MinMaxScaler.transform (s : MinMaxScaler) (x : List ℚ) : Except String (List ℚ) :=
  if x.length = s.nFeatures then
    .ok (s.transformRow x)
  else
    .error ("X has " ++ toString x.length ++ " features, but MinMaxScaler is expecting "
      ++ toString s.nFeatures ++ " features as input")

/-- `scaler.fit_transform`: fit on the matrix, then transform it. -/
def MinMaxScaler.fitTransform (X : List (List ℚ)) : MinMaxScaler × List (List ℚ) :=
  let s := MinMaxScaler.fit X
  (s, X.map s.transformRow)

/-! ### Feature column lists (preprocess.py and inference.py) -/

/-- preprocess.py, prepare_features_for_ndvi_prediction: the training-time
NDVI feature columns (9 fields, including blue_band and green_band). -/
def ndvi_train_feature_cols : List String :=
  ["ndvi_prev", "ndvi_change", "red_band", "nir_band",
   "blue_band", "green_band", "cloud_cover", "temperature", "humidity"]

/-- preprocess.py / inference.py change-detection feature columns. -/
def change_feature_cols : List String :=
  ["ndvi", "ndvi_prev", "ndvi_change", "red_band", "nir_band",
   "cloud_cover", "temperature"]

/-- preprocess.py / inference.py risk-classification feature columns. -/
def risk_feature_cols : List String :=
  ["ndvi", "ndvi_change", "red_band", "nir_band",
   "cloud_cover", "temperature", "humidity"]

/-- inference.py, predict_ndvi: the inference-time NDVI feature columns
(7 fields). -/
def ndvi_infer_feature_cols : List String :=
  ["ndvi_prev", "ndvi_change", "red_band", "nir_band",
   "cloud_cover", "temperature", "humidity"]

/-! ### Synthetic training table (preprocess.generate_synthetic_training_data) -/

/-- One row of the synthetic training DataFrame.  `date` is the day of
January 2024 (row i carries date 2024-01-(i+1)); `ndvi_7day_ahead` is
`none` where pandas `shift(-7)` produces NaN; `is_change` and `risk_level`
are the integer labels stored by the source. -/
structure Row where
  date : Nat
  ndvi : ℚ
  ndvi_prev : ℚ
  ndvi_change : ℚ
  red_band : ℚ
  nir_band : ℚ
  blue_band : ℚ
  green_band : ℚ
  cloud_cover : ℚ
  temperature : ℚ
  humidity : ℚ
  ndvi_7day_ahead : Option ℚ
  is_change : Nat
  risk_level : Nat
  deriving DecidableEq

/-- Column access by name (`df[col]` on one row); non-numeric or unknown
columns yield `none`. -/
def Row.col (r : Row) : String → Option ℚ
  | "ndvi" => some r.ndvi
  | "ndvi_prev" => some r.ndvi_prev
  | "ndvi_change" => some r.ndvi_change
  | "red_band" => some r.red_band
  | "nir_band" => some r.nir_band
  | "blue_band" => some r.blue_band
  | "green_band" => some r.green_band
  | "cloud_cover" => some r.cloud_cover
  | "temperature" => some r.temperature
  | "humidity" => some r.humidity
  | "ndvi_7day_ahead" => r.ndvi_7day_ahead
  | _ => none

/-- `np.random.uniform(lo, hi)` applied to one raw draw `u` of the stream:
the affine image of the draw in the requested interval. -/
def uniformDraw (lo hi u : ℚ) : ℚ :=
  lo + (hi - lo) * u

/-- `np.random.normal(mu, sigma)` applied to one raw standard draw. -/
def normalDraw (mu sigma u : ℚ) : ℚ :=
  mu + sigma * u

/-- `np.clip(x, 0, 1)`. -/
def clip01 (x : ℚ) : ℚ :=
  rmax 0 (rmin x 1)

/-- pandas `rolling(window=7, min_periods=1).mean()` of the series `v` at
index `j`: the mean of the last `min (j+1) 7` values ending at `j`. -/
def rollingMean7 (v : Nat → ℚ) (j : Nat) : ℚ :=
  let cnt := min (j + 1) 7
  let lo := j + 1 - cnt
  (((List.range cnt).map (fun k => v (lo + k))).foldl (· + ·) 0) / (cnt : ℚ)

/-- Row `i` of the synthetic table, built from the post-seed draw stream
`u`.  Draws 0-29 are the ndvi base, 30-59 the gaussian noise, then one
block of 30 per spectral/weather column, in source order.
`ndvi_prev` is `np.roll(ndvi, 1)` (wrap-around), `ndvi_change` is
`np.diff(ndvi, prepend=0)`, `ndvi_7day_ahead` is the rolling mean shifted
by -7 (NaN for the last 7 rows), and the labels follow the source:
`is_change = int(ndvi_change < -0.1)` and the nested `np.where` for
`risk_level`. -/
def genRow (u : Nat → ℚ) (i : Nat) : Row :=
  let ndviAt := fun t : Nat =>
    clip01 (uniformDraw (3/10) (9/10) (u t) + normalDraw 0 (1/20) (u (30 + t)))
  let change := ndviAt i - (if i = 0 then 0 else ndviAt (i - 1))
  { date := i + 1
  , ndvi := ndviAt i
  , ndvi_prev := ndviAt ((i + 29) % 30)
  , ndvi_change := change
  , red_band := uniformDraw (1/10) (4/10) (u (60 + i))
  , nir_band := uniformDraw (3/10) (6/10) (u (90 + i))
  , blue_band := uniformDraw (1/20) (3/10) (u (120 + i))
  , green_band := uniformDraw (1/10) (4/10) (u (150 + i))
  , cloud_cover := uniformDraw 0 (3/10) (u (180 + i))
  , temperature := uniformDraw 15 35 (u (210 + i))
  , humidity := uniformDraw 30 90 (u (240 + i))
  , ndvi_7day_ahead :=
      if i + 7 ≤ 29 then some (rollingMean7 ndviAt (i + 7)) else none
  , is_change := if change < -(1/10) then 1 else 0
  , risk_level :=
      if ndviAt i < 4/10 then 2
      else if ndviAt i < 6/10 ∨ change < -(1/20) then 1
      else 0 }

/-- `generate_synthetic_training_data(n_samples)`.  The function begins
with `np.random.seed(42)`, which replaces the process-global RNG state
(`globalRng`) by the stream for seed 42; both `globalRng` and `n_samples`
are unused afterwards, exactly as in the source, and the table always has
the 30 hard-coded rows. -/
def generate_synthetic_training_data
    (rngStream : Nat → Nat → ℚ) (globalRng : Nat → ℚ) (n_samples : Nat) : List Row :=
  let u := rngStream 42
  (List.range 30).map (genRow u)

/-! ### SatelliteDataPreprocessor (preprocess.py) -/

/-- Mutable state of `SatelliteDataPreprocessor`: the `scaler_features`
MinMaxScaler, `none` while unfitted.  (The unused `scaler_ndvi`
StandardScaler is not modelled.) -/
structure Preprocessor where
  scaler_features : Option MinMaxScaler
  deriving DecidableEq

/-- `df[cols]` projection of one row; `none` when some column is missing
(the row would be dropped by `dropna`). -/
def projectRow (cols : List String) (r : Row) : Option (List ℚ) :=
  cols.mapM r.col

/-- The `(X_scaled, y, feature_cols)` triple returned by the prepare
functions. -/
structure PreparedData where
  x_scaled : List (List ℚ)
  y : List ℚ
  feature_cols : List String
  deriving DecidableEq

/-- Common body of the three `prepare_features_for_*` methods: select the
task columns, drop rows with a missing feature or a missing target (the
`dropna` plus index alignment of the source), then `fit_transform` the
feature matrix — which refits `self.scaler_features` in place. -/
def prepareFeatures (p : Preprocessor) (df : List Row)
    (cols : List String) (target : Row → Option ℚ) : Preprocessor × PreparedData :=
  let keep := df.filter (fun r => ((projectRow cols r).isSome && (target r).isSome : Bool))
  let X := keep.filterMap (projectRow cols)
  let y := keep.filterMap target
  let st := MinMaxScaler.fitTransform X
  ({ p with scaler_features := some st.1 },
   { x_scaled := st.2, y := y, feature_cols := cols })

/-- `prepare_features_for_ndvi_prediction`: 9 feature columns, target
`ndvi_7day_ahead`. -/
def prepare_features_for_ndvi_prediction (p : Preprocessor) (df : List Row) :
    Preprocessor × PreparedData :=
  prepareFeatures p df ndvi_train_feature_cols (fun r => r.ndvi_7day_ahead)

/-- `prepare_features_for_change_detection`: 7 feature columns, target
`is_change`. -/
def prepare_features_for_change_detection (p : Preprocessor) (df : List Row) :
    Preprocessor × PreparedData :=
  prepareFeatures p df change_feature_cols (fun r => some (r.is_change : ℚ))

/-- `prepare_features_for_risk_classification`: 7 feature columns, target
`risk_level`. -/
def prepare_features_for_risk_classification (p : Preprocessor) (df : List Row) :
    Preprocessor × PreparedData :=
  prepareFeatures p df risk_feature_cols (fun r => some (r.risk_level : ℚ))

/-! ### Trained model artifacts (opaque library models, with the feature
count validation of sklearn/xgboost `predict`) -/

/-- An opaque trained regressor (the XGBoost `ndvi_predictor`): the feature
count it was fitted on, plus an arbitrary prediction function. -/
structure Regressor where
  nFeatures : Nat
  predictFn : List ℚ → ℚ

/-- An opaque trained classifier (`change_detector`, `risk_classifier`):
feature count, label prediction and class-probability vector. -/
structure Classifier where
  nFeatures : Nat
  predictFn : List ℚ → Int
  predictProbaFn : List ℚ → List ℚ

/-- `model.predict` on one row: the library raises on a feature-count
mismatch with the fitted shape. -/
def Regressor.predict (m : Regressor) (x : List ℚ) : Except String ℚ :=
  if x.length = m.nFeatures then .ok (m.predictFn x)
  else .error ("feature shape mismatch: got " ++ toString x.length
    ++ ", expected " ++ toString m.nFeatures)

/-- Classifier `predict`. -/
def Classifier.predict (m : Classifier) (x : List ℚ) : Except String Int :=
  if x.length = m.nFeatures then .ok (m.predictFn x)
  else .error ("feature shape mismatch: got " ++ toString x.length
    ++ ", expected " ++ toString m.nFeatures)

/-- Classifier `predict_proba`. -/
def Classifier.predict_proba (m : Classifier) (x : List ℚ) : Except String (List ℚ) :=
  if x.length = m.nFeatures then .ok (m.predictProbaFn x)
  else .error ("feature shape mismatch: got " ++ toString x.length
    ++ ", expected " ++ toString m.nFeatures)

/-! ### ModelInference (inference.py) -/

/-- State of `ModelInference` after `load_models`: each artifact is loaded
independently, a missing file leaves its slot empty (the source catches
`FileNotFoundError` per artifact, prints a warning and continues). -/
structure ModelInference where
  ndvi_predictor : Option Regressor
  change_detector : Option Classifier
  risk_classifier : Option Classifier
  scaler : Option MinMaxScaler

/-- The feature row built at inference time:
`[[features.get(col, 0.0) for col in feature_cols]]`. -/
def buildFeatureVector (cols : List String) (features : Features) : List ℚ :=
  cols.map (fun c => features.getD c 0)

/-- `predict_ndvi`: check the model and the scaler are loaded, build the
7-field vector with 0.0 defaults, scale, predict, clip to [0,1]; errors of
the scale/predict block are wrapped with context. -/
def ModelInference.predict_ndvi (inf : ModelInference) (features : Features) :
    Except String ℚ :=
  match inf.ndvi_predictor with
  | none => .error ("NDVI predictor model not loaded")
  | some m =>
    match inf.scaler with
    | none => .error ("Scaler not loaded")
    | some s =>
      let X := buildFeatureVector ndvi_infer_feature_cols features
      match s.transform X with
      | .error e => .error ("Prediction failed: " ++ e)
      | .ok xs =>
        match m.predict xs with
        | .error e => .error ("Prediction failed: " ++ e)
        | .ok p => .ok (clip01 p)

/-- Result dict of `predict_change_detection`. -/
structure ChangeResult where
  is_change : Bool
  confidence : ℚ
  deriving DecidableEq

/-- `predict_change_detection`: 7-field vector with 0 defaults, scale,
predict and predict_proba; `is_change = bool(prediction)` and the
confidence is `probability[1]` (an out-of-range index raises and is caught
as a wrapped error). -/
def ModelInference.predict_change_detection (inf : ModelInference) (features : Features) :
    Except String ChangeResult :=
  match inf.change_detector with
  | none => .error ("Change detector model not loaded")
  | some m =>
    match inf.scaler with
    | none => .error ("Scaler not loaded")
    | some s =>
      let X := buildFeatureVector change_feature_cols features
      match s.transform X with
      | .error e => .error ("Change detection prediction failed: " ++ e)
      | .ok xs =>
        match m.predict xs with
        | .error e => .error ("Change detection prediction failed: " ++ e)
        | .ok pred =>
          match m.predict_proba xs with
          | .error e => .error ("Change detection prediction failed: " ++ e)
          | .ok proba =>
            match proba.get? 1 with
            | none => .error ("Change detection prediction failed: index 1 is out of bounds")
            | some conf => .ok { is_change := pred != 0, confidence := conf }

/-- The fixed `risk_levels` mapping of `predict_risk_level`:
`{0: 'Low', 1: 'Medium', 2: 'High'}`; any other key raises KeyError. -/
def risk_levels (level : Int) : Option String :=
  if level = 0 then some ("Low")
  else if level = 1 then some ("Medium")
  else if level = 2 then some ("High")
  else none

/-- Result dict of `predict_risk_level`. -/
structure RiskResult where
  risk_level : Int
  risk_label : String
  confidence : ℚ
  deriving DecidableEq

/-- `predict_risk_level`: 7-field vector with 0 defaults, scale, predict
and predict_proba; the label comes from the `risk_levels` dict (a KeyError
for a label outside {0,1,2} is caught as a wrapped error) and the
confidence is `max(probabilities)`. -/
def ModelInference.predict_risk_level (inf : ModelInference) (features : Features) :
    Except String RiskResult :=
  match inf.risk_classifier with
  | none => .error ("Risk classifier model not loaded")
  | some m =>
    match inf.scaler with
    | none => .error ("Scaler not loaded")
    | some s =>
      let X := buildFeatureVector risk_feature_cols features
      match s.transform X with
      | .error e => .error ("Risk level prediction failed: " ++ e)
      | .ok xs =>
        match m.predict xs with
        | .error e => .error ("Risk level prediction failed: " ++ e)
        | .ok pred =>
          match m.predict_proba xs with
          | .error e => .error ("Risk level prediction failed: " ++ e)
          | .ok proba =>
            match risk_levels pred, pyMax proba with
            | some label, some conf =>
              .ok { risk_level := pred, risk_label := label, confidence := conf }
            | none, _ => .error ("Risk level prediction failed: KeyError")
            | _, none => .error ("Risk level prediction failed: max of empty sequence")

/-- The combined result dict of `predict_all`. -/
structure AllPredictions where
  ndvi_forecast : ℚ
  change_detection : ChangeResult
  risk_assessment : RiskResult
  deriving DecidableEq

/-- `predict_all`: evaluates the three sub-predictions in source order
(ndvi, change, risk); the first raised error propagates and no partial
result is produced. -/
def ModelInference.predict_all (inf : ModelInference) (features : Features) :
    Except String AllPredictions :=
  match inf.predict_ndvi features with
  | .error e => .error e
  | .ok n =>
    match inf.predict_change_detection features with
    | .error e => .error e
    | .ok c =>
      match inf.predict_risk_level features with
      | .error e => .error e
      | .ok r => .ok { ndvi_forecast := n, change_detection := c, risk_assessment := r }

/-! ### ModelAPI.process_request and the Flask endpoints
(inference.py, backend_integration.py) -/

/-- The JSON envelope of `ModelAPI.process_request` (the wall-clock
`timestamp` field is not modelled): on success the three predictions are
nested under `predictions` and the input is echoed; on failure only
`success=false` and the error string are present. -/
structure Envelope where
  success : Bool
  error : Option String
  predictions : Option AllPredictions
  input_features : Option Features
  deriving DecidableEq

/-- `ModelAPI.process_request` on a dict request: try `predict_all`, catch
any exception into the `{success: false, error}` envelope. -/
def process_request (inf : ModelInference) (request_data : Features) : Envelope :=
  match inf.predict_all request_data with
  | .ok preds =>
    { success := true, error := none
    , predictions := some preds, input_features := some request_data }
  | .error e =>
    { success := false, error := some e, predictions := none, input_features := none }

/-- Flask route `POST /predict/all`: HTTP 200 when the envelope reports
success, 400 otherwise. -/
def predict_all_endpoint (inf : ModelInference) (data : Features) : Nat × Envelope :=
  let result := process_request inf data
  if result.success then (200, result) else (400, result)

/-- JSON body of the `/predict/ndvi` route (static `unit` and
`interpretation` strings omitted). -/
structure NdviResponse where
  success : Bool
  ndvi_forecast : Option ℚ
  error : Option String
  deriving DecidableEq

/-- Flask route `POST /predict/ndvi`: 200 with the forecast on success,
400 with `{success: false, error}` when `predict_ndvi` raises. -/
def predict_ndvi_endpoint (inf : ModelInference) (data : Features) : Nat × NdviResponse :=
  match inf.predict_ndvi data with
  | .ok p => (200, { success := true, ndvi_forecast := some p, error := none })
  | .error e => (400, { success := false, ndvi_forecast := none, error := some e })

/-! ### Concrete evaluation fixtures -/

/-- A concrete table row (plausible values in the documented ranges). -/
def sampleRow : Row :=
  { date := 1, ndvi := 1/2, ndvi_prev := 2/5, ndvi_change := 1/10
  , red_band := 1/4, nir_band := 1/2, blue_band := 3/20, green_band := 3/10
  , cloud_cover := 1/10, temperature := 25, humidity := 65
  , ndvi_7day_ahead := some (11/20), is_change := 0, risk_level := 1 }

/-- A second concrete row with distinct values. -/
def sampleRow2 : Row :=
  { date := 2, ndvi := 7/10, ndvi_prev := 1/2, ndvi_change := 1/5
  , red_band := 3/10, nir_band := 11/20, blue_band := 1/10, green_band := 7/20
  , cloud_cover := 1/5, temperature := 30, humidity := 70
  , ndvi_7day_ahead := some (3/5), is_change := 0, risk_level := 0 }

/-- The all-zero raw draw stream. -/
def zdraws : Nat → ℚ := fun _ => 0

/-- A seed-indexed stream family whose every seed yields the zero stream. -/
def zstream : Nat → Nat → ℚ := fun _ => zdraws

/-- The sample request of the source (`inference.py` main and
`backend_integration.py` docstrings), as exact rationals. -/
def demoFeatures : Features :=
  [("ndvi_prev", 7/10), ("ndvi_change", -(1/20)), ("red_band", 1/4),
   ("nir_band", 1/2), ("blue_band", 3/20), ("green_band", 3/10),
   ("cloud_cover", 1/10), ("temperature", 51/2), ("humidity", 65),
   ("ndvi", 13/20)]

/-- A fitted scaler whose 7 per-column parameters are min 0 / max 1, so the
transform is the identity on each entry. -/
def scaler0 : MinMaxScaler :=
  { dataMin := List.replicate 7 0, dataMax := List.replicate 7 1 }

/-- A 7-feature regressor whose raw output is the constant 3/2 (above the
valid NDVI range, to exercise the clamp). -/
def reg0 : Regressor :=
  { nFeatures := 7, predictFn := fun _ => 3/2 }

/-- A 7-feature binary/3-class classifier: label 1, probabilities
[1/4, 3/4]. -/
def clf0 : Classifier :=
  { nFeatures := 7, predictFn := fun _ => 1, predictProbaFn := fun _ => [1/4, 3/4] }

/-- An inference engine with every artifact loaded. -/
def infGood : ModelInference :=
  { ndvi_predictor := some reg0, change_detector := some clf0
  , risk_classifier := some clf0, scaler := some scaler0 }

/-- An inference engine whose NDVI predictor artifact failed to load. -/
def infNoNdvi : ModelInference :=
  { ndvi_predictor := none, change_detector := some clf0
  , risk_classifier := some clf0, scaler := some scaler0 }

/-- The explicit zero-completion of a request: every inference NDVI field
bound, missing ones to 0.0.  Used to state that `predict_ndvi` treats a
partial dict exactly like its completed form. -/
def zeroCompleted (data : Features) : Features :=
  ndvi_infer_feature_cols.map (fun c => (c, data.getD c 0))

/-- A request dict with all but one field missing. -/
def partialFeatures : Features :=
  [("ndvi_prev", 7/10)]

end SatML

namespace SatML

/-! ### Claim theorems -/

/-- C1 (code bug evidence): the ordered feature field list used by
`prepare_features_for_ndvi_prediction` at training time is NOT the 7-field
list used by `predict_ndvi` at inference time: training uses 9 fields
(including blue_band and green_band), inference uses 7, so the claimed
train/inference feature-ordering equality fails on the code. -/
theorem c1_ndvi_train_infer_feature_cols_mismatch :
    (prepare_features_for_ndvi_prediction { scaler_features := none } [sampleRow]).2.feature_cols
      = ndvi_train_feature_cols ∧
    ndvi_train_feature_cols.length = 9 ∧
    ndvi_infer_feature_cols.length = 7 ∧
    ndvi_train_feature_cols ≠ ndvi_infer_feature_cols := by
  decide

/-- C2 (code bug evidence): the scaler is NOT fitted exactly once.  Running
the prepare methods in pipeline order on a concrete two-row table refits
`scaler_features` each time: after the NDVI prepare the fitted state has 9
per-field min/max parameters, after the change-detection prepare it has 7,
so the state fitted first is modified by a later operation. -/
theorem c2_scaler_refit_on_each_prepare :
    (((prepare_features_for_ndvi_prediction { scaler_features := none }
        [sampleRow, sampleRow2]).1).scaler_features.map MinMaxScaler.nFeatures = some 9) ∧
    (((prepare_features_for_change_detection
        (prepare_features_for_ndvi_prediction { scaler_features := none }
          [sampleRow, sampleRow2]).1
        [sampleRow, sampleRow2]).1).scaler_features.map MinMaxScaler.nFeatures = some 7) ∧
    ((prepare_features_for_ndvi_prediction { scaler_features := none }
        [sampleRow, sampleRow2]).1).scaler_features ≠
      ((prepare_features_for_change_detection
        (prepare_features_for_ndvi_prediction { scaler_features := none }
          [sampleRow, sampleRow2]).1
        [sampleRow, sampleRow2]).1).scaler_features := by
  have h1 : ((prepare_features_for_ndvi_prediction { scaler_features := none }
      [sampleRow, sampleRow2]).1).scaler_features.map MinMaxScaler.nFeatures = some 9 := by
    decide
  have h2 : (((prepare_features_for_change_detection
      (prepare_features_for_ndvi_prediction { scaler_features := none }
        [sampleRow, sampleRow2]).1
      [sampleRow, sampleRow2]).1).scaler_features.map MinMaxScaler.nFeatures = some 7) := by
    decide
  refine ⟨h1, h2, fun h => ?_⟩
  rw [h] at h1
  exact absurd (h1.symm.trans h2) (by decide)

/-- Helper: `np.clip(x, 0, 1)` lands in [0, 1]. -/
theorem clip01_bounds (x : ℚ) : 0 ≤ clip01 x ∧ clip01 x ≤ 1 := by
  unfold clip01 rmax rmin
  split_ifs <;> constructor <;> linarith

/-- Helper: the NDVI inference vector built from the zero-completed dict
coincides with the vector built from the original dict. -/
theorem zeroCompleted_vector (data : Features) :
    buildFeatureVector ndvi_infer_feature_cols (zeroCompleted data)
      = buildFeatureVector ndvi_infer_feature_cols data := by
  simp [buildFeatureVector, zeroCompleted, ndvi_infer_feature_cols, Features.getD, List.lookup]

/-- Helper: concrete NDVI prediction of the fully loaded engine on the
sample request (raw output 3/2, clamped to 1). -/
theorem infGood_ndvi_eval : infGood.predict_ndvi demoFeatures = Except.ok 1 := by
  norm_num [ModelInference.predict_ndvi, infGood, reg0, scaler0, demoFeatures,
    buildFeatureVector, ndvi_infer_feature_cols, Features.getD, List.lookup,
    MinMaxScaler.transform, MinMaxScaler.transformRow, MinMaxScaler.nFeatures,
    minmaxScale, Regressor.predict, clip01, rmin, rmax, List.zip, List.zipWith]

/-- Helper: concrete change-detection prediction of the fully loaded
engine on the sample request. -/
theorem infGood_change_eval :
    infGood.predict_change_detection demoFeatures
      = Except.ok { is_change := true, confidence := 3/4 } := by
  norm_num [ModelInference.predict_change_detection, infGood, clf0, scaler0, demoFeatures,
    buildFeatureVector, change_feature_cols, Features.getD, List.lookup,
    MinMaxScaler.transform, MinMaxScaler.transformRow, MinMaxScaler.nFeatures,
    minmaxScale, Classifier.predict, Classifier.predict_proba, List.zip, List.zipWith]

/-- Helper: concrete risk prediction of the fully loaded engine on the
sample request. -/
theorem infGood_risk_eval :
    infGood.predict_risk_level demoFeatures
      = Except.ok { risk_level := 1, risk_label := "Medium", confidence := 3/4 } := by
  norm_num [ModelInference.predict_risk_level, infGood, clf0, scaler0, demoFeatures,
    buildFeatureVector, risk_feature_cols, Features.getD, List.lookup,
    MinMaxScaler.transform, MinMaxScaler.transformRow, MinMaxScaler.nFeatures,
    minmaxScale, Classifier.predict, Classifier.predict_proba, risk_levels,
    pyMax, rmax, List.zip, List.zipWith]

/-- C8: in every table the synthetic generator can produce, each row's
`is_change` label is 1 (true) exactly when the row's `ndvi_change` is below
-0.1, and `risk_level` is 2 when `ndvi < 0.4`, else 1 when `ndvi < 0.6` or
`ndvi_change < -0.05`, else 0. -/
theorem c8_synthetic_labels (rngStream : Nat → Nat → ℚ) (g : Nat → ℚ) (n : Nat) :
    ∀ r ∈ generate_synthetic_training_data rngStream g n,
      (r.is_change = 1 ↔ r.ndvi_change < -(1/10)) ∧
      r.risk_level =
        (if r.ndvi < 4/10 then 2
         else if r.ndvi < 6/10 ∨ r.ndvi_change < -(1/20) then 1
         else 0) := by
  intro r hr
  simp only [generate_synthetic_training_data, List.mem_map] at hr
  obtain ⟨i, _, hgen⟩ := hr
  subst hgen
  refine ⟨?_, ?_⟩
  · simp only [genRow]
    constructor
    · intro h
      by_contra hB
      rw [if_neg hB] at h
      exact absurd h (by decide)
    · intro hB
      rw [if_pos hB]
  · simp only [genRow]

/-- C8 witness: the first row of the table generated from the zero draw
stream satisfies the label relations. -/
theorem c8_synthetic_labels_witness :
    ((genRow zdraws 0).is_change = 1 ↔ (genRow zdraws 0).ndvi_change < -(1/10)) ∧
    (genRow zdraws 0).risk_level =
      (if (genRow zdraws 0).ndvi < 4/10 then 2
       else if (genRow zdraws 0).ndvi < 6/10 ∨ (genRow zdraws 0).ndvi_change < -(1/20) then 1
       else 0) :=
  c8_synthetic_labels zstream zdraws 1000 (genRow zdraws 0)
    (by
      show genRow zdraws 0 ∈ (List.range 30).map (genRow (zstream 42))
      exact List.mem_map.mpr ⟨0, List.mem_range.mpr (by norm_num), rfl⟩)

/-- C9: synthetic data generation is reproducible.  The function reseeds
the global RNG with the fixed seed 42 before drawing, so for one draw-stream
family the produced table does not depend on the ambient global RNG state:
two calls with the same sample-count argument return identical tables, cell
for cell and in the same row order. -/
theorem c9_generator_deterministic (rngStream : Nat → Nat → ℚ)
    (g g' : Nat → ℚ) (n : Nat) :
    generate_synthetic_training_data rngStream g n
      = generate_synthetic_training_data rngStream g' n := rfl

/-- C3: the combined prediction is all-or-nothing.  For every engine and
request: if any of the three sub-predictions fails, the `/predict/all`
endpoint returns HTTP 400 with the `{success: false, error}` envelope and
no partial results; if all three succeed, it returns HTTP 200 with
`success: true` and the three sub-results nested under `predictions`. -/
theorem c3_predict_all_no_partial_results (inf : ModelInference) (data : Features) :
    ((isOk (inf.predict_ndvi data) = false ∨
      isOk (inf.predict_change_detection data) = false ∨
      isOk (inf.predict_risk_level data) = false) →
      ∃ e, predict_all_endpoint inf data =
        (400, { success := false, error := some e
              , predictions := none, input_features := none })) ∧
    (∀ n c r, inf.predict_ndvi data = .ok n →
      inf.predict_change_detection data = .ok c →
      inf.predict_risk_level data = .ok r →
      predict_all_endpoint inf data =
        (200, { success := true, error := none
              , predictions := some { ndvi_forecast := n, change_detection := c
                                    , risk_assessment := r }
              , input_features := some data })) := by
  constructor
  · intro h
    cases h1 : inf.predict_ndvi data with
    | error e =>
      exact ⟨e, by simp [predict_all_endpoint, process_request, ModelInference.predict_all, h1]⟩
    | ok n =>
      cases h2 : inf.predict_change_detection data with
      | error e =>
        exact ⟨e, by
          simp [predict_all_endpoint, process_request, ModelInference.predict_all, h1, h2]⟩
      | ok c =>
        cases h3 : inf.predict_risk_level data with
        | error e =>
          exact ⟨e, by
            simp [predict_all_endpoint, process_request, ModelInference.predict_all, h1, h2, h3]⟩
        | ok r =>
          rcases h with h | h | h <;> simp [isOk, h1, h2, h3] at h
  · intro n c r h1 h2 h3
    simp [predict_all_endpoint, process_request, ModelInference.predict_all, h1, h2, h3]

/-- C3 witness: with the NDVI artifact missing the combined endpoint
answers 400 with an error envelope and no partial results; with every
artifact loaded it answers 200 with the three nested sub-results. -/
theorem c3_predict_all_no_partial_results_witness :
    (∃ e, predict_all_endpoint infNoNdvi demoFeatures =
      (400, { success := false, error := some e
            , predictions := none, input_features := none })) ∧
    predict_all_endpoint infGood demoFeatures =
      (200, { success := true, error := none
            , predictions := some
                { ndvi_forecast := 1
                , change_detection := { is_change := true, confidence := 3/4 }
                , risk_assessment := { risk_level := 1, risk_label := "Medium", confidence := 3/4 } }
            , input_features := some demoFeatures }) :=
  ⟨(c3_predict_all_no_partial_results infNoNdvi demoFeatures).1
      (Or.inl (by simp [ModelInference.predict_ndvi, infNoNdvi, isOk])),
   (c3_predict_all_no_partial_results infGood demoFeatures).2 1
      { is_change := true, confidence := 3/4 }
      { risk_level := 1, risk_label := "Medium", confidence := 3/4 }
      infGood_ndvi_eval infGood_change_eval infGood_risk_eval⟩

/-- C4: whenever `predict_ndvi` returns a value, that value lies in the
closed interval [0, 1], whatever raw output the model produced (the source
clips it with `np.clip(prediction, 0, 1)`). -/
theorem c4_predict_ndvi_in_unit_interval (inf : ModelInference) (data : Features) (p : ℚ)
    (h : inf.predict_ndvi data = .ok p) : 0 ≤ p ∧ p ≤ 1 := by
  simp only [ModelInference.predict_ndvi] at h
  split at h
  · exact Except.noConfusion h
  · split at h
    · exact Except.noConfusion h
    · split at h
      · exact Except.noConfusion h
      · split at h
        · exact Except.noConfusion h
        · obtain rfl : clip01 _ = p := by injection h
          exact clip01_bounds _

/-- C4 witness: the loaded engine whose regressor's raw output is 3/2
(outside the NDVI range) returns exactly 1, which the theorem places in
[0, 1]. -/
theorem c4_predict_ndvi_in_unit_interval_witness :
    infGood.predict_ndvi demoFeatures = Except.ok 1 ∧ ((0:ℚ) ≤ 1 ∧ (1:ℚ) ≤ 1) :=
  ⟨infGood_ndvi_eval,
   c4_predict_ndvi_in_unit_interval infGood demoFeatures 1 infGood_ndvi_eval⟩

/-- C5: whenever `predict_risk_level` returns a result, `risk_level` is one
of 0, 1, 2 and `risk_label` is exactly its image under the fixed
`risk_levels` mapping (0 to Low, 1 to Medium, 2 to High). -/
theorem c5_risk_level_and_label (inf : ModelInference) (data : Features) (r : RiskResult)
    (h : inf.predict_risk_level data = .ok r) :
    (r.risk_level = 0 ∨ r.risk_level = 1 ∨ r.risk_level = 2) ∧
    risk_levels r.risk_level = some r.risk_label := by
  simp only [ModelInference.predict_risk_level] at h
  split at h
  · exact Except.noConfusion h
  · split at h
    · exact Except.noConfusion h
    · split at h
      · exact Except.noConfusion h
      · split at h
        · exact Except.noConfusion h
        · split at h
          · exact Except.noConfusion h
          · split at h
            · rename_i hlab hmax
              injection h with h4
              subst h4
              constructor
              · simp only [risk_levels] at hlab
                split_ifs at hlab with h0 h1 h2
                · exact Or.inl h0
                · exact Or.inr (Or.inl h1)
                · exact Or.inr (Or.inr h2)
              · exact hlab
            · exact Except.noConfusion h
            · exact Except.noConfusion h

/-- C5 witness: the loaded engine returns risk_level 1 with label Medium on
the sample request, and the theorem certifies membership in {0,1,2} and the
mapping. -/
theorem c5_risk_level_and_label_witness :
    (((1:Int) = 0 ∨ (1:Int) = 1 ∨ (1:Int) = 2) ∧
      risk_levels 1 = some "Medium") :=
  c5_risk_level_and_label infGood demoFeatures
    { risk_level := 1, risk_label := "Medium", confidence := 3/4 } infGood_risk_eval

/-- C6: missing input fields are not an error at inference time.  For any
engine whose NDVI model, change detector and scaler are loaded with the
matching feature counts, prediction succeeds on EVERY feature dict —
including dicts missing fields — and `predict_ndvi` returns on a partial
dict exactly what it returns on the dict explicitly completed with 0.0 for
every missing field. -/
theorem c6_missing_fields_default_zero (inf : ModelInference) (m : Regressor)
    (cm : Classifier) (s : MinMaxScaler) (data : Features)
    (hm : inf.ndvi_predictor = some m) (hs : inf.scaler = some s)
    (hsl : s.dataMin.length = 7) (hsl2 : s.dataMax.length = 7) (hmn : m.nFeatures = 7)
    (hc : inf.change_detector = some cm) (hcn : cm.nFeatures = 7)
    (hp : ∀ x, ∃ p q, cm.predictProbaFn x = [p, q]) :
    isOk (inf.predict_ndvi data) = true ∧
    isOk (inf.predict_change_detection data) = true ∧
    inf.predict_ndvi data = inf.predict_ndvi (zeroCompleted data) := by
  have hX : (buildFeatureVector ndvi_infer_feature_cols data).length = 7 := by
    simp [buildFeatureVector, ndvi_infer_feature_cols]
  have ht : s.transform (buildFeatureVector ndvi_infer_feature_cols data)
      = .ok (s.transformRow (buildFeatureVector ndvi_infer_feature_cols data)) := by
    simp [MinMaxScaler.transform, MinMaxScaler.nFeatures, hX, hsl]
  have hlen : (s.transformRow (buildFeatureVector ndvi_infer_feature_cols data)).length = 7 := by
    simp [MinMaxScaler.transformRow, hsl, hsl2, hX]
  have hXc : (buildFeatureVector change_feature_cols data).length = 7 := by
    simp [buildFeatureVector, change_feature_cols]
  have htc : s.transform (buildFeatureVector change_feature_cols data)
      = .ok (s.transformRow (buildFeatureVector change_feature_cols data)) := by
    simp [MinMaxScaler.transform, MinMaxScaler.nFeatures, hXc, hsl]
  have hlenc : (s.transformRow (buildFeatureVector change_feature_cols data)).length = 7 := by
    simp [MinMaxScaler.transformRow, hsl, hsl2, hXc]
  obtain ⟨p, q, hpq⟩ := hp (s.transformRow (buildFeatureVector change_feature_cols data))
  refine ⟨?_, ?_, ?_⟩
  · simp [ModelInference.predict_ndvi, hm, hs, ht, Regressor.predict, hlen, hmn, isOk]
  · simp [ModelInference.predict_change_detection, hc, hs, htc, Classifier.predict,
      Classifier.predict_proba, hlenc, hcn, hpq, isOk]
  · simp only [ModelInference.predict_ndvi, zeroCompleted_vector]

/-- C6 witness: the loaded engine succeeds on a dict carrying only
`ndvi_prev`, and its NDVI answer equals the answer on the explicitly
zero-completed dict. -/
theorem c6_missing_fields_default_zero_witness :
    isOk (infGood.predict_ndvi partialFeatures) = true ∧
    isOk (infGood.predict_change_detection partialFeatures) = true ∧
    infGood.predict_ndvi partialFeatures = infGood.predict_ndvi (zeroCompleted partialFeatures) :=
  c6_missing_fields_default_zero infGood reg0 clf0 scaler0 partialFeatures rfl rfl
    rfl rfl rfl rfl rfl (fun _ => ⟨1/4, 3/4, rfl⟩)

/-- C7: a missing artifact is surfaced per call, not fatally.  When the
NDVI artifact is absent, `predict_ndvi` raises exactly the error naming
that artifact and the `/predict/ndvi` route answers 400 with that
non-empty error string; meanwhile `predict_risk_level` still succeeds on
any engine whose own classifier and scaler are loaded (with matching
feature counts, in-range labels and non-empty probability output). -/
theorem c7_artifact_not_loaded_per_call (inf : ModelInference) (data : Features) :
    (inf.ndvi_predictor = none →
      inf.predict_ndvi data = .error ("NDVI predictor model not loaded") ∧
      predict_ndvi_endpoint inf data =
        (400, { success := false, ndvi_forecast := none
              , error := some ("NDVI predictor model not loaded") }) ∧
      ("NDVI predictor model not loaded" : String) ≠ "") ∧
    (∀ rm s, inf.risk_classifier = some rm → inf.scaler = some s →
      s.dataMin.length = 7 → s.dataMax.length = 7 → rm.nFeatures = 7 →
      (∀ x, (risk_levels (rm.predictFn x)).isSome = true) →
      (∀ x, rm.predictProbaFn x ≠ []) →
      isOk (inf.predict_risk_level data) = true) := by
  constructor
  · intro h
    refine ⟨?_, ?_, by decide⟩
    · simp [ModelInference.predict_ndvi, h]
    · simp [predict_ndvi_endpoint, ModelInference.predict_ndvi, h]
  · intro rm s hr hs hsl hsl2 hrn hlab hproba
    have hX : (buildFeatureVector risk_feature_cols data).length = 7 := by
      simp [buildFeatureVector, risk_feature_cols]
    have ht : s.transform (buildFeatureVector risk_feature_cols data)
        = .ok (s.transformRow (buildFeatureVector risk_feature_cols data)) := by
      simp [MinMaxScaler.transform, MinMaxScaler.nFeatures, hX, hsl]
    have hlen : (s.transformRow (buildFeatureVector risk_feature_cols data)).length = 7 := by
      simp [MinMaxScaler.transformRow, hsl, hsl2, hX]
    obtain ⟨label, hlabel⟩ := Option.isSome_iff_exists.mp
      (hlab (s.transformRow (buildFeatureVector risk_feature_cols data)))
    cases hpm : rm.predictProbaFn (s.transformRow (buildFeatureVector risk_feature_cols data)) with
    | nil => exact absurd hpm (hproba _)
    | cons p ps =>
      simp [ModelInference.predict_risk_level, hr, hs, ht, Classifier.predict,
        Classifier.predict_proba, hlen, hrn, hpm, hlabel, pyMax, isOk]

/-- C7 witness: with the NDVI artifact missing, the NDVI call errors with
the artifact-naming message, the route answers 400 with that non-empty
string, and the risk call on the same engine still succeeds. -/
theorem c7_artifact_not_loaded_per_call_witness :
    (infNoNdvi.predict_ndvi demoFeatures = .error ("NDVI predictor model not loaded") ∧
     predict_ndvi_endpoint infNoNdvi demoFeatures =
       (400, { success := false, ndvi_forecast := none
             , error := some ("NDVI predictor model not loaded") }) ∧
     ("NDVI predictor model not loaded" : String) ≠ "") ∧
    isOk (infNoNdvi.predict_risk_level demoFeatures) = true :=
  ⟨(c7_artifact_not_loaded_per_call infNoNdvi demoFeatures).1 rfl,
   (c7_artifact_not_loaded_per_call infNoNdvi demoFeatures).2 clf0 scaler0 rfl rfl rfl rfl rfl
     (fun _ => rfl) (fun _ => by simp [clf0])⟩

/-- C10: the generator ignores `n_samples`: for every draw stream, global
RNG state and requested sample count, the table has exactly 30 rows, dated
day 1 through day 30 of January 2024. -/
theorem c10_generator_always_30_rows (rngStream : Nat → Nat → ℚ)
    (g : Nat → ℚ) (n : Nat) :
    (generate_synthetic_training_data rngStream g n).length = 30 ∧
    (generate_synthetic_training_data rngStream g n).map Row.date
      = (List.range 30).map (fun i => i + 1) := by
  refine ⟨?_, ?_⟩
  · simp [generate_synthetic_training_data]
  · show ((List.range 30).map (genRow (rngStream 42))).map Row.date = _
    rw [List.map_map]
    rfl

end SatML
